import Mathlib

/-!
Shallow embedding of the Registration Console component
(src/src/renderer/src/App.tsx of generyand/stud-reg).

The component is a single React function component.  Its client-side state
consists of six `useState` cells (form data, editing user, live search input,
committed search term, delete-modal flag, pending delete target), a query
cache accessed through `queryClient.invalidateQueries`, and three mutations
(create, update, delete) each with a pending flag.

We embed it as a pure state machine: every event handler becomes a function
`ClientState → ClientState`; the asynchronous settlement of a mutation
(success or failure) becomes an explicit event.  Issued requests are recorded
in lists so that "no mutation was invoked" is expressible.  Cache
invalidation is recorded as the list of keys passed to `invalidateQueries`;
a cached key is stale when some recorded key is a leading segment of it,
mirroring the query library's default partial key matching.
-/

/-- User entity: `User` of `../../shared/types` (id, firstName, lastName). -/
structure User where
  id : String
  firstName : String
  lastName : String
deriving DecidableEq

/-- Creation DTO: `CreateUserInput` of `../../shared/types`. -/
structure CreateUserInput where
  firstName : String
  lastName : String
deriving DecidableEq

/-- A query key, e.g. `['users']` or `['users', 'search', term]`. -/
abbrev QueryKey := List String

/-- `a` is a leading segment of `b` (the query library's default fuzzy
key matching used by `invalidateQueries`). -/
def keyMatches : QueryKey → QueryKey → Bool
  | [], _ => true
  | _ :: _, [] => false
  | a :: as, b :: bs => a == b && keyMatches as bs

/-- The query cache, observed through the invalidations performed on it:
the list of keys passed to `queryClient.invalidateQueries`. -/
structure QueryCache where
  invalidated : List QueryKey
deriving DecidableEq

/-- `queryClient.invalidateQueries \x7b queryKey \x7d`: record the key. -/
def QueryCache.invalidateQueries (c : QueryCache) (key : QueryKey) : QueryCache :=
  ⟨key :: c.invalidated⟩

/-- A cached entry `key` is stale (will refetch) when some invalidation
covers it under partial key matching. -/
def QueryCache.isStale (c : QueryCache) (key : QueryKey) : Bool :=
  c.invalidated.any (fun p => keyMatches p key)

/-- JavaScript truthiness of a string: only `""` is falsy. -/
def strTruthy (s : String) : Bool := s != ""

/-- JavaScript truthiness of a nullable string: `null` and `""` are falsy. -/
def optStrTruthy : Option String → Bool
  | none => false
  | some s => strTruthy s

/-- The two named form fields (`name="firstName"` / `name="lastName"`
on the form inputs). -/
inductive FormField where
  | firstName
  | lastName
deriving DecidableEq

/-- Read a named field of the form data. -/
def getField (fd : CreateUserInput) : FormField → String
  | .firstName => fd.firstName
  | .lastName => fd.lastName

/-- `\x7b ...prev, [name]: value \x7d`: keyed merge writing only the named
field (App.tsx line 68). -/
def setField (fd : CreateUserInput) : FormField → String → CreateUserInput
  | .firstName, v => { fd with firstName := v }
  | .lastName, v => { fd with lastName := v }

/-- The component's full client-side state, plus the requests each mutation
has issued (so that absence of a call is observable). -/
structure ClientState where
  formData : CreateUserInput
  editingUser : Option User
  searchInput : String
  searchTerm : String
  isDeleteModalOpen : Bool
  userToDelete : Option String
  cache : QueryCache
  createPending : Bool
  updatePending : Bool
  deletePending : Bool
  createRequests : List CreateUserInput
  updateRequests : List (String × CreateUserInput)
  deleteRequests : List String
deriving DecidableEq

/-- Initial state: the `useState` initialisers of App.tsx lines 10-18,
an empty cache, idle mutations. -/
def initState : ClientState where
  formData := ⟨"", ""⟩
  editingUser := none
  searchInput := ""
  searchTerm := ""
  isDeleteModalOpen := false
  userToDelete := none
  cache := ⟨[]⟩
  createPending := false
  updatePending := false
  deletePending := false
  createRequests := []
  updateRequests := []
  deleteRequests := []

/-- The external API surface consumed by the queries (spec §6): the backend
responses for `getUsers` and `searchUser`. -/
structure Api where
  getUsers : List User
  searchUser : String → List User

/-- `queryFn` of the search query (App.tsx line 30):
`searchTerm ? api.searchUser(searchTerm) : api.getUsers()`. -/
def searchQueryFn (api : Api) (searchTerm : String) : List User :=
  if strTruthy searchTerm then api.searchUser searchTerm else api.getUsers

/-- The rows the table renders: `searchResults` data, i.e. the search
query's fetch for the committed term (App.tsx line 252). -/
def displayedRows (api : Api) (s : ClientState) : List User :=
  searchQueryFn api s.searchTerm

/-- `handleInputChange` (App.tsx lines 66-69): keyed merge of the named
field into the form data. -/
def handleInputChange (s : ClientState) (f : FormField) (v : String) : ClientState :=
  { s with formData := setField s.formData f v }

/-- `handleSubmit` (lines 61-64): `createUserMutation.mutate(formData)` —
the create mutation goes pending with the current form data. -/
def handleSubmit (s : ClientState) : ClientState :=
  { s with createPending := true,
           createRequests := s.createRequests ++ [s.formData] }

/-- `onSuccess` of `createUserMutation` (lines 39-42): invalidate
`['users']`, then reset the form. -/
def createUserMutationOnSuccess (s : ClientState) : ClientState :=
  { s with cache := s.cache.invalidateQueries ["users"],
           formData := ⟨"", ""⟩ }

/-- Settlement of an in-flight create: pending drops to false; on success
the mutation's `onSuccess` runs, on failure nothing else happens. -/
def createSettled (ok : Bool) (s : ClientState) : ClientState :=
  if ok then createUserMutationOnSuccess { s with createPending := false }
  else { s with createPending := false }

/-- `handleUpdate` (lines 89-105): guarded by `if (editingUser)`; issues the
update mutation with the editing user's id and the current form data. -/
def handleUpdate (s : ClientState) : ClientState :=
  match s.editingUser with
  | some u =>
    { s with updatePending := true,
             updateRequests := s.updateRequests ++ [(u.id, s.formData)] }
  | none => s

/-- `onSuccess` of `updateUserMutation` itself (lines 55-57): invalidate
`['users']`. -/
def updateUserMutationOnSuccess (s : ClientState) : ClientState :=
  { s with cache := s.cache.invalidateQueries ["users"] }

/-- The call-site `onSuccess` passed to `mutate` inside `handleUpdate`
(lines 98-101): exit edit mode and reset the form. -/
def handleUpdateCallSiteOnSuccess (s : ClientState) : ClientState :=
  { s with editingUser := none, formData := ⟨"", ""⟩ }

/-- Settlement of an in-flight update: on success the mutation-level hook
runs first, then the call-site hook layered on top of it. -/
def updateSettled (ok : Bool) (s : ClientState) : ClientState :=
  if ok then
    handleUpdateCallSiteOnSuccess
      (updateUserMutationOnSuccess { s with updatePending := false })
  else { s with updatePending := false }

/-- `handleDelete` (lines 71-74): record the target id and open the
confirmation modal. -/
def handleDelete (s : ClientState) (id : String) : ClientState :=
  { s with userToDelete := some id, isDeleteModalOpen := true }

/-- `handleConfirmDelete` (lines 76-82): guarded by `if (userToDelete)`
(JS truthiness, so `""` also fails the guard); issues the delete mutation,
closes the modal and clears the target. -/
def handleConfirmDelete (s : ClientState) : ClientState :=
  match s.userToDelete with
  | some id =>
    if strTruthy id then
      { s with deletePending := true,
               deleteRequests := s.deleteRequests ++ [id],
               isDeleteModalOpen := false,
               userToDelete := none }
    else s
  | none => s

/-- `onSuccess` of `deleteUserMutation` (lines 47-50): invalidate
`['users']` and `['users', 'search']`. -/
def deleteUserMutationOnSuccess (s : ClientState) : ClientState :=
  { s with cache :=
      (s.cache.invalidateQueries ["users"]).invalidateQueries ["users", "search"] }

/-- Settlement of an in-flight delete. -/
def deleteSettled (ok : Bool) (s : ClientState) : ClientState :=
  if ok then deleteUserMutationOnSuccess { s with deletePending := false }
  else { s with deletePending := false }

/-- `handleEdit` (lines 84-87): enter edit mode, copying the user's names
into the form. -/
def handleEdit (s : ClientState) (u : User) : ClientState :=
  { s with editingUser := some u,
           formData := ⟨u.firstName, u.lastName⟩ }

/-- The Cancel button (lines 216-219): clear the form and exit edit mode. -/
def cancelForm (s : ClientState) : ClientState :=
  { s with formData := ⟨"", ""⟩, editingUser := none }

/-- `handleSearch` (lines 107-109): every keystroke updates only the live
input box value. -/
def handleSearch (s : ClientState) (v : String) : ClientState :=
  { s with searchInput := v }

/-- `executeSearch` (lines 111-113): commit the live input as the search
term. -/
def executeSearch (s : ClientState) : ClientState :=
  { s with searchTerm := s.searchInput }

/-- `handleSearchKeyPress` (lines 115-119): Enter commits, any other key
does nothing. -/
def handleSearchKeyPress (s : ClientState) (key : String) : ClientState :=
  if key == "Enter" then executeSearch s else s

/-- The modal's `onClose` (lines 288-291): close the prompt and clear the
target, without touching the delete mutation. -/
def confirmModalOnClose (s : ClientState) : ClientState :=
  { s with isDeleteModalOpen := false, userToDelete := none }

/-- The form's `onSubmit` (line 169):
`editingUser ? handleUpdate : handleSubmit`. -/
def formOnSubmit (s : ClientState) : ClientState :=
  match s.editingUser with
  | some _ => handleUpdate s
  | none => handleSubmit s

/-- The UI events the component reacts to, including the asynchronous
settlement of each mutation. -/
inductive Event where
  | inputChange (f : FormField) (v : String)
  | formSubmit
  | cancelEdit
  | editClick (u : User)
  | deleteClick (id : String)
  | confirmDelete
  | closeModal
  | searchChange (v : String)
  | searchSubmit
  | searchKey (k : String)
  | createResult (ok : Bool)
  | updateResult (ok : Bool)
  | deleteResult (ok : Bool)

/-- One step of the component: dispatch an event to its handler. -/
def step : Event → ClientState → ClientState
  | .inputChange f v, s => handleInputChange s f v
  | .formSubmit, s => formOnSubmit s
  | .cancelEdit, s => cancelForm s
  | .editClick u, s => handleEdit s u
  | .deleteClick id, s => handleDelete s id
  | .confirmDelete, s => handleConfirmDelete s
  | .closeModal, s => confirmModalOnClose s
  | .searchChange v, s => handleSearch s v
  | .searchSubmit, s => executeSearch s
  | .searchKey k, s => handleSearchKeyPress s k
  | .createResult ok, s => createSettled ok s
  | .updateResult ok, s => updateSettled ok s
  | .deleteResult ok, s => deleteSettled ok s

/-- Run a sequence of events from a state. -/
def applyEvents (s : ClientState) (es : List Event) : ClientState :=
  es.foldl (fun t e => step e t) s

/-- Events that edit the live search input without committing it: a
keystroke's change event, or a key press other than Enter. -/
def uncommittedEdit : Event → Bool
  | .searchChange _ => true
  | .searchKey k => k != "Enter"
  | _ => false

/-- The deletion targets pending confirmation (the single `userToDelete`
slot, viewed as a collection). -/
def pendingTargets (s : ClientState) : List String :=
  match s.userToDelete with
  | none => []
  | some id => [id]

/-- Apply a sequence of field edits to the form data (repeated
`handleInputChange`). -/
def applyEdits (fd : CreateUserInput) (es : List (FormField × String)) : CreateUserInput :=
  es.foldl (fun acc e => setField acc e.1 e.2) fd

/-- The last value written to field `k` by the edit sequence, if any. -/
def lastValue : List (FormField × String) → FormField → Option String
  | [], _ => none
  | e :: es, k =>
    match lastValue es k with
    | some v => some v
    | none => if e.1 = k then some e.2 else none

/-! ## Helper lemmas -/

/-- Uncommitted search-input events never change the committed term. -/
theorem searchTerm_unchanged_by_uncommitted (s : ClientState) (e : Event)
    (h : uncommittedEdit e = true) :
    (step e s).searchTerm = s.searchTerm := by
  cases e <;> simp [uncommittedEdit] at h <;>
    simp [step, handleSearch, handleSearchKeyPress, h]

/-- Uncommitted search-input event sequences never change the committed
term. -/
theorem searchTerm_unchanged_by_uncommitted_seq (s : ClientState)
    (es : List Event) (h : es.all uncommittedEdit = true) :
    (applyEvents s es).searchTerm = s.searchTerm := by
  induction es generalizing s with
  | nil => rfl
  | cons e es ih =>
    rw [List.all_cons, Bool.and_eq_true] at h
    show (applyEvents (step e s) es).searchTerm = s.searchTerm
    rw [ih (step e s) h.2, searchTerm_unchanged_by_uncommitted s e h.1]

/-- Reading a field after a keyed write: the written field sees the new
value, the other field is untouched. -/
theorem getField_setField (fd : CreateUserInput) (f k : FormField) (v : String) :
    getField (setField fd f v) k = if f = k then v else getField fd k := by
  cases f <;> cases k <;> simp [getField, setField]

/-! ## Claim theorems -/

/-- C4: when the committed search term is the empty string, the search
query's fetch calls the full-list operation — `searchQueryFn` on `""` is
exactly `api.getUsers` — so the displayed rows equal the full unfiltered
list. -/
theorem empty_term_search_is_full_list (api : Api) (s : ClientState)
    (h : s.searchTerm = "") :
    searchQueryFn api "" = api.getUsers ∧
    displayedRows api s = api.getUsers := by
  constructor <;> simp [displayedRows, searchQueryFn, strTruthy, h]

/-- Witness for C4 at the initial state. -/
theorem empty_term_search_is_full_list_witness :
    searchQueryFn (Api.mk [] (fun _ => [])) "" = [] ∧
    displayedRows (Api.mk [] (fun _ => [])) initState = [] :=
  empty_term_search_is_full_list (Api.mk [] (fun _ => [])) initState rfl

/-- C7: clicking delete on a row records the target and opens the prompt;
cancelling or closing the prompt without confirming clears the recorded
identifier and returns the gate to Idle, and no delete request is issued
anywhere along that path (so the target user is never deleted). -/
theorem delete_then_cancel_no_delete_call (s : ClientState) (id : String) :
    (confirmModalOnClose (handleDelete s id)).userToDelete = none ∧
    (confirmModalOnClose (handleDelete s id)).isDeleteModalOpen = false ∧
    (confirmModalOnClose (handleDelete s id)).deleteRequests = s.deleteRequests ∧
    (handleDelete s id).deleteRequests = s.deleteRequests := by
  simp [confirmModalOnClose, handleDelete]

/-- C8: the pending-deletion slot holds at most one identifier in any
state, and clicking delete on a second row while the prompt is open
overwrites the recorded target with the new identifier. -/
theorem single_pending_deletion_target :
    (∀ s : ClientState, (pendingTargets s).length ≤ 1) ∧
    (∀ (s : ClientState) (id1 id2 : String),
      (handleDelete (handleDelete s id1) id2).userToDelete = some id2 ∧
      (handleDelete (handleDelete s id1) id2).isDeleteModalOpen = true ∧
      (handleDelete s id1).isDeleteModalOpen = true) := by
  constructor
  · intro s
    cases h : s.userToDelete <;> simp [pendingTargets, h]
  · intro s id1 id2
    simp [handleDelete]

/-- C9: a failed create, update or delete performs no retry and runs no
error-path handler: the settled state is the prior state with only the
mutation's pending flag reset to false (form data, edit mode, search term,
deletion target, cache invalidations and issued requests all unchanged). -/
theorem mutation_failure_only_resets_pending (s : ClientState) :
    createSettled false s = { s with createPending := false } ∧
    updateSettled false s = { s with updatePending := false } ∧
    deleteSettled false s = { s with deletePending := false } := by
  refine ⟨rfl, rfl, rfl⟩

/-- C10: confirming while no deletion target is recorded (null target, or
the empty-string identifier, which the JS truthiness guard treats as
absent) is a no-op: no delete request is issued, the prompt stays as it
was, and the whole state is unchanged. -/
theorem confirm_without_target_is_noop (s : ClientState)
    (h : s.userToDelete = none ∨ s.userToDelete = some "") :
    handleConfirmDelete s = s := by
  rcases h with h | h <;> simp [handleConfirmDelete, h, strTruthy]

/-- Witness for C10 at the initial state (null target). -/
theorem confirm_without_target_is_noop_witness :
    handleConfirmDelete initState = initState :=
  confirm_without_target_is_noop initState (Or.inl rfl)

/-- C1: from any state with a recorded deletion target and the prompt open,
confirming issues the delete; when it succeeds, the `users` key and every
`users:search:<term>` key are stale, the pending deletion target is
cleared, and the confirmation prompt is closed. -/
theorem confirmed_delete_invalidates_and_closes (s : ClientState)
    (hopen : s.isDeleteModalOpen = true)
    (htgt : optStrTruthy s.userToDelete = true) :
    (deleteSettled true (handleConfirmDelete s)).cache.isStale ["users"] = true ∧
    (∀ term : String,
      (deleteSettled true (handleConfirmDelete s)).cache.isStale
        ["users", "search", term] = true) ∧
    (deleteSettled true (handleConfirmDelete s)).userToDelete = none ∧
    (deleteSettled true (handleConfirmDelete s)).isDeleteModalOpen = false := by
  cases h : s.userToDelete with
  | none => rw [h] at htgt; simp [optStrTruthy] at htgt
  | some id =>
    rw [h] at htgt
    simp only [optStrTruthy] at htgt
    simp [handleConfirmDelete, h, htgt, deleteSettled, deleteUserMutationOnSuccess,
      QueryCache.invalidateQueries, QueryCache.isStale, keyMatches]

/-- Witness for C1: delete clicked on id `u1`, then confirmed, then the
mutation succeeds; the search key for term `Jane` is stale. -/
theorem confirmed_delete_invalidates_and_closes_witness :
    (deleteSettled true (handleConfirmDelete (handleDelete initState "u1"))).cache.isStale
      ["users"] = true ∧
    (deleteSettled true (handleConfirmDelete (handleDelete initState "u1"))).cache.isStale
      ["users", "search", "Jane"] = true ∧
    (deleteSettled true (handleConfirmDelete (handleDelete initState "u1"))).userToDelete
      = none ∧
    (deleteSettled true (handleConfirmDelete (handleDelete initState "u1"))).isDeleteModalOpen
      = false := by
  obtain ⟨a, b, c, d⟩ :=
    confirmed_delete_invalidates_and_closes (handleDelete initState "u1") rfl (by decide)
  exact ⟨a, b "Jane", c, d⟩

/-- C2: in create mode (no user being edited), submitting issues the create
mutation with the current form data; when it succeeds, the `users` key is
stale and the form state is reset to empty strings. -/
theorem create_submit_success_invalidates_and_resets (s : ClientState)
    (h : s.editingUser = none) :
    (createSettled true (formOnSubmit s)).cache.isStale ["users"] = true ∧
    (createSettled true (formOnSubmit s)).formData = ⟨"", ""⟩ := by
  simp [formOnSubmit, h, handleSubmit, createSettled, createUserMutationOnSuccess,
    QueryCache.invalidateQueries, QueryCache.isStale, keyMatches]

/-- Witness for C2 at the initial state. -/
theorem create_submit_success_invalidates_and_resets_witness :
    (createSettled true (formOnSubmit initState)).cache.isStale ["users"] = true ∧
    (createSettled true (formOnSubmit initState)).formData = ⟨"", ""⟩ :=
  create_submit_success_invalidates_and_resets initState rfl

/-- C3: in edit mode, submitting issues the update mutation; when it
succeeds, the `users` key is stale, edit mode is exited and the form is
reset — and the post-state factors as the call-site success hook applied
on top of the mutation's own invalidation hook. -/
theorem update_submit_success_layered_hooks (s : ClientState) (u : User)
    (h : s.editingUser = some u) :
    (updateSettled true (formOnSubmit s)).cache.isStale ["users"] = true ∧
    (updateSettled true (formOnSubmit s)).editingUser = none ∧
    (updateSettled true (formOnSubmit s)).formData = ⟨"", ""⟩ ∧
    updateSettled true (formOnSubmit s) =
      handleUpdateCallSiteOnSuccess
        (updateUserMutationOnSuccess { formOnSubmit s with updatePending := false }) := by
  refine ⟨?_, ?_, ?_, rfl⟩ <;>
    simp [formOnSubmit, h, handleUpdate, updateSettled, updateUserMutationOnSuccess,
      handleUpdateCallSiteOnSuccess, QueryCache.invalidateQueries, QueryCache.isStale,
      keyMatches]

/-- Witness for C3: edit clicked on a concrete user, then submit, then the
update succeeds. -/
theorem update_submit_success_layered_hooks_witness :
    (updateSettled true (formOnSubmit
      (handleEdit initState (User.mk "u1" "Ada" "Lovelace")))).cache.isStale
      ["users"] = true ∧
    (updateSettled true (formOnSubmit
      (handleEdit initState (User.mk "u1" "Ada" "Lovelace")))).editingUser = none ∧
    (updateSettled true (formOnSubmit
      (handleEdit initState (User.mk "u1" "Ada" "Lovelace")))).formData = ⟨"", ""⟩ ∧
    updateSettled true (formOnSubmit
      (handleEdit initState (User.mk "u1" "Ada" "Lovelace"))) =
      handleUpdateCallSiteOnSuccess (updateUserMutationOnSuccess
        { formOnSubmit (handleEdit initState (User.mk "u1" "Ada" "Lovelace")) with
            updatePending := false }) :=
  update_submit_success_layered_hooks
    (handleEdit initState (User.mk "u1" "Ada" "Lovelace"))
    (User.mk "u1" "Ada" "Lovelace") rfl

/-- C5: the displayed table rows are determined by the committed search
term alone: two runs from the same state differing only in uncommitted
live-input edits display the same rows, namely the query function's result
for the committed term. -/
theorem displayed_rows_ignore_uncommitted_input (api : Api) (s : ClientState)
    (es1 es2 : List Event)
    (h1 : es1.all uncommittedEdit = true) (h2 : es2.all uncommittedEdit = true) :
    displayedRows api (applyEvents s es1) = displayedRows api (applyEvents s es2) ∧
    displayedRows api (applyEvents s es1) = searchQueryFn api s.searchTerm := by
  have e1 := searchTerm_unchanged_by_uncommitted_seq s es1 h1
  have e2 := searchTerm_unchanged_by_uncommitted_seq s es2 h2
  constructor <;> simp [displayedRows, e1, e2]

/-- Witness for C5: one run types `Ja`, the other types `J` then presses a
non-Enter key; the displayed rows agree. -/
theorem displayed_rows_ignore_uncommitted_input_witness :
    displayedRows (Api.mk [] (fun _ => []))
        (applyEvents initState [Event.searchChange "Ja"]) =
      displayedRows (Api.mk [] (fun _ => []))
        (applyEvents initState [Event.searchChange "J", Event.searchKey "a"]) ∧
    displayedRows (Api.mk [] (fun _ => []))
        (applyEvents initState [Event.searchChange "Ja"]) =
      searchQueryFn (Api.mk [] (fun _ => [])) initState.searchTerm :=
  displayed_rows_ignore_uncommitted_input (Api.mk [] (fun _ => [])) initState
    [Event.searchChange "Ja"] [Event.searchChange "J", Event.searchKey "a"]
    (by decide) (by decide)

/-- C6: a field edit performs a keyed merge touching only the named field
of the form state; a sequence of edits yields the last value written per
field; and edits to distinct fields commute. -/
theorem field_edits_keyed_last_write_commute :
    (∀ (s : ClientState) (f : FormField) (v : String),
      (handleInputChange s f v).formData = setField s.formData f v ∧
      (handleInputChange s f v).editingUser = s.editingUser) ∧
    (∀ (fd : CreateUserInput) (f k : FormField) (v : String), k ≠ f →
      getField (setField fd f v) k = getField fd k) ∧
    (∀ (fd : CreateUserInput) (es : List (FormField × String)) (k : FormField),
      getField (applyEdits fd es) k = (lastValue es k).getD (getField fd k)) ∧
    (∀ (fd : CreateUserInput) (f1 f2 : FormField) (v1 v2 : String), f1 ≠ f2 →
      setField (setField fd f1 v1) f2 v2 = setField (setField fd f2 v2) f1 v1) := by
  refine ⟨?_, ?_, ?_, ?_⟩
  · intro s f v
    exact ⟨rfl, rfl⟩
  · intro fd f k v hk
    rw [getField_setField, if_neg (fun hfk => hk hfk.symm)]
  · intro fd es k
    induction es generalizing fd with
    | nil => rfl
    | cons e es ih =>
      show getField (applyEdits (setField fd e.1 e.2) es) k = _
      rw [ih]
      cases hl : lastValue es k with
      | some v => simp [lastValue, hl]
      | none =>
        simp only [lastValue, hl, Option.getD]
        rw [getField_setField]
        by_cases hek : e.1 = k
        · simp [hek]
        · simp [hek]
  · intro fd f1 f2 v1 v2 h12
    cases f1 <;> cases f2
    · exact absurd rfl h12
    · rfl
    · rfl
    · exact absurd rfl h12

/-- Witness for C6: editing `firstName` leaves `lastName` untouched, and
the two distinct-field writes commute, at a concrete form state. -/
theorem field_edits_keyed_last_write_commute_witness :
    getField (setField (CreateUserInput.mk "a" "b") FormField.firstName "x")
        FormField.lastName =
      getField (CreateUserInput.mk "a" "b") FormField.lastName ∧
    setField (setField (CreateUserInput.mk "a" "b") FormField.firstName "x")
        FormField.lastName "y" =
      setField (setField (CreateUserInput.mk "a" "b") FormField.lastName "y")
        FormField.firstName "x" :=
  ⟨field_edits_keyed_last_write_commute.2.1
      (CreateUserInput.mk "a" "b") FormField.firstName FormField.lastName "x" (by decide),
   field_edits_keyed_last_write_commute.2.2.2
      (CreateUserInput.mk "a" "b") FormField.firstName FormField.lastName "x" "y" (by decide)⟩
